import Mathlib

/-!
# Verification of the forecasting-ensemble and inventory-arbitration engine

Shallow embedding (over `ℚ`, with `Real.sqrt` where the source calls
`np.sqrt`) of the demand-forecasting engine of the repository:

* `src/inventory-forecasting/src/models/evaluator.py` (business-cost evaluator)
* `src/inventory-forecasting/src/inventory/optimizer.py` (safety stock,
  prep recommendations)
* `src/inventory-forecasting/src/features/lag_features.py` and
  `src/FlowPOS/services/forecasting/src/models/model_service.py`
  (feature construction)
* `src/FlowPOS/services/forecasting/src/models/model_service.py`
  (ensemble voting / multi-day forecast)
* `src/FlowPOS/services/forecasting/src/api/model_routes.py`
  (BOM explosion and ingredient forecast)
* `src/FlowPOS/services/forecasting/src/llm/tools.py` (cold-start estimator)
* `src/inventory-forecasting/src/models/ensemble.py`,
  `src/src/models/xgboost_model.py`,
  `src/FlowPOS/services/forecasting/src/models/rnn_forecaster.py`,
  `src/FlowPOS/services/forecasting/src/models/baseline.py`
  (model variants and their output guards)

Numeric policy: Python/NumPy floats are embedded as exact rationals.
`round(x, n)` / `Series.round()` use round-half-to-even (banker's
rounding), embedded exactly by `rhe` below.  Where NaN/±inf semantics
are the point of a claim, the extended value type `PVal` embeds IEEE
special values together with Python's `max` semantics on them.
-/

/-- Round-half-to-even on an exact rational, the semantics of Python's
built-in `round` and NumPy's `Series.round()` (ignoring binary-float
representation error, which the rational embedding abstracts away).
`rhe x` is the nearest integer to `x`, ties going to the even integer. -/
def rhe (x : ℚ) : ℤ :=
  if x - (⌊x⌋ : ℚ) < 1/2 then ⌊x⌋
  else if 1/2 < x - (⌊x⌋ : ℚ) then ⌊x⌋ + 1
  else if Even ⌊x⌋ then ⌊x⌋ else ⌊x⌋ + 1

/-- Python `round(x, 1)`: round to one decimal, half to even. -/
def pyRound1 (x : ℚ) : ℚ := (rhe (10 * x) : ℚ) / 10

/-- Python `round(x, 2)`: round to two decimals, half to even. -/
def pyRound2 (x : ℚ) : ℚ := (rhe (100 * x) : ℚ) / 100

theorem floor_le_rhe (x : ℚ) : ⌊x⌋ ≤ rhe x := by
  unfold rhe
  split
  · omega
  · split
    · omega
    · split <;> omega

theorem rhe_le_floor_add_one (x : ℚ) : rhe x ≤ ⌊x⌋ + 1 := by
  unfold rhe
  split
  · omega
  · split
    · omega
    · split <;> omega

theorem rhe_le (x : ℚ) : (rhe x : ℚ) ≤ x + 1/2 := by
  unfold rhe
  split
  · have := Int.floor_le x
    linarith
  · split
    · push_cast
      linarith
    · have h1 : ¬ (x - (⌊x⌋ : ℚ) < 1/2) := by assumption
      have h2 : ¬ (1/2 < x - (⌊x⌋ : ℚ)) := by assumption
      have heq : x - (⌊x⌋ : ℚ) = 1/2 := le_antisymm (not_lt.mp h2) (not_lt.mp h1)
      split
      · linarith
      · push_cast
        linarith

theorem le_rhe (x : ℚ) : x - 1/2 ≤ (rhe x : ℚ) := by
  have hlt := Int.lt_floor_add_one x
  unfold rhe
  split
  · linarith
  · split
    · push_cast
      linarith
    · have h1 : ¬ (x - (⌊x⌋ : ℚ) < 1/2) := by assumption
      have h2 : ¬ (1/2 < x - (⌊x⌋ : ℚ)) := by assumption
      have heq : x - (⌊x⌋ : ℚ) = 1/2 := le_antisymm (not_lt.mp h2) (not_lt.mp h1)
      split
      · linarith
      · push_cast
        linarith

theorem rhe_intCast (n : ℤ) : rhe (n : ℚ) = n := by
  unfold rhe
  have hf : ⌊(n : ℚ)⌋ = n := Int.floor_intCast n
  rw [hf]
  norm_num

theorem rhe_mono {x y : ℚ} (h : x ≤ y) : rhe x ≤ rhe y := by
  rcases lt_or_eq_of_le (Int.floor_le_floor h) with hf | hf
  · -- different floors: rhe x ≤ ⌊x⌋ + 1 ≤ ⌊y⌋ ≤ rhe y
    have hx := rhe_le_floor_add_one x
    have hy := floor_le_rhe y
    omega
  · -- same floor: compare the fractional parts
    have hr : x - (⌊y⌋ : ℚ) ≤ y - (⌊y⌋ : ℚ) := by linarith
    unfold rhe
    rw [hf]
    by_cases hx1 : x - (⌊y⌋ : ℚ) < 1/2
    · rw [if_pos hx1]
      split
      · omega
      · split
        · omega
        · split <;> omega
    · rw [if_neg hx1]
      have hy1 : ¬ (y - (⌊y⌋ : ℚ) < 1/2) := fun hy => hx1 (lt_of_le_of_lt hr hy)
      rw [if_neg hy1]
      by_cases hx2 : (1:ℚ)/2 < x - (⌊y⌋ : ℚ)
      · rw [if_pos hx2, if_pos (lt_of_lt_of_le hx2 hr)]
      · rw [if_neg hx2]
        by_cases hy2 : (1:ℚ)/2 < y - (⌊y⌋ : ℚ)
        · rw [if_pos hy2]
          split <;> omega
        · rw [if_neg hy2]

theorem pyRound1_mono {x y : ℚ} (h : x ≤ y) : pyRound1 x ≤ pyRound1 y := by
  unfold pyRound1
  have := rhe_mono (mul_le_mul_of_nonneg_left h (by norm_num : (0:ℚ) ≤ 10))
  have hc : ((rhe (10 * x) : ℚ)) ≤ ((rhe (10 * y) : ℚ)) := by exact_mod_cast this
  linarith

theorem pyRound1_intCast (n : ℤ) : pyRound1 (n : ℚ) = n := by
  unfold pyRound1
  have : (10 : ℚ) * n = ((10 * n : ℤ) : ℚ) := by push_cast; ring
  rw [this, rhe_intCast]
  push_cast
  ring

theorem pyRound1_nonneg {x : ℚ} (h : 0 ≤ x) : 0 ≤ pyRound1 x := by
  have := pyRound1_mono h
  rw [show (0:ℚ) = ((0:ℤ):ℚ) by norm_num, pyRound1_intCast] at this
  exact_mod_cast this

theorem pyRound1_le (x : ℚ) : pyRound1 x ≤ x + 1/20 := by
  unfold pyRound1
  have := rhe_le (10 * x)
  linarith

section BusinessCostEvaluator

/-!
Embeds `src/inventory-forecasting/src/models/evaluator.py`.
`actual`, `predicted`, `prices` are aligned per-position series (NumPy
arrays of equal length in the source; `zipWith3` coincides with NumPy
elementwise arithmetic on equal-length inputs).
-/

/-- `waste_cost_dkk`: `overstock = np.maximum(predicted - actual, 0)`;
`(overstock * prices * waste_fraction).sum()`. -/
def waste_cost_dkk (actual predicted prices : List ℚ) (waste_fraction : ℚ) : ℚ :=
  (List.zipWith3 (fun a p pr => max (p - a) 0 * pr * waste_fraction)
    actual predicted prices).sum

/-- `stockout_cost_dkk`: `understock = np.maximum(actual - predicted, 0)`;
`(understock * prices).sum()`. -/
def stockout_cost_dkk (actual predicted prices : List ℚ) : ℚ :=
  (List.zipWith3 (fun a p pr => max (a - p) 0 * pr) actual predicted prices).sum

/-- `total_business_cost_dkk`: `waste_multiplier * wc + stockout_multiplier * sc`. -/
def total_business_cost_dkk (actual predicted prices : List ℚ)
    (waste_fraction waste_multiplier stockout_multiplier : ℚ) : ℚ :=
  waste_multiplier * waste_cost_dkk actual predicted prices waste_fraction
    + stockout_multiplier * stockout_cost_dkk actual predicted prices

theorem waste_cost_eq_zero_of_le {actual predicted : List ℚ}
    (prices : List ℚ) (waste_fraction : ℚ)
    (h : List.Forall₂ (· ≤ ·) predicted actual) :
    waste_cost_dkk actual predicted prices waste_fraction = 0 := by
  unfold waste_cost_dkk
  induction h generalizing prices with
  | nil => cases prices <;> rfl
  | @cons p a ps as hpa _ ih =>
    cases prices with
    | nil => rfl
    | cons pr prs =>
      simp only [List.zipWith3, List.sum_cons]
      rw [ih prs, max_eq_right (sub_nonpos.mpr hpa)]
      ring

theorem stockout_cost_eq_zero_of_ge {actual predicted : List ℚ}
    (prices : List ℚ)
    (h : List.Forall₂ (· ≤ ·) actual predicted) :
    stockout_cost_dkk actual predicted prices = 0 := by
  unfold stockout_cost_dkk
  induction h generalizing prices with
  | nil => cases prices <;> rfl
  | @cons a p as ps hap _ ih =>
    cases prices with
    | nil => rfl
    | cons pr prs =>
      simp only [List.zipWith3, List.sum_cons]
      rw [ih prs, max_eq_right (sub_nonpos.mpr hap)]
      ring

end BusinessCostEvaluator

/-- C6: for every actual series, predicted series, price vector, fraction and
multiplier pair, the total business cost equals exactly
`waste_multiplier * waste_cost + stockout_multiplier * stockout_cost`;
the waste cost vanishes when `predicted ≤ actual` at every position, and the
stockout cost vanishes when `predicted ≥ actual` at every position. -/
theorem c6_total_cost_decomposition
    (actual predicted prices : List ℚ) (wf wm sm : ℚ) :
    total_business_cost_dkk actual predicted prices wf wm sm
      = wm * waste_cost_dkk actual predicted prices wf
        + sm * stockout_cost_dkk actual predicted prices
    ∧ (List.Forall₂ (· ≤ ·) predicted actual →
        waste_cost_dkk actual predicted prices wf = 0)
    ∧ (List.Forall₂ (· ≤ ·) actual predicted →
        stockout_cost_dkk actual predicted prices = 0) := by
  refine ⟨rfl, ?_, ?_⟩
  · intro h
    exact waste_cost_eq_zero_of_le prices wf h
  · intro h
    exact stockout_cost_eq_zero_of_ge prices h

/-- Witness for C6 at `actual = [3, 5]`, `predicted = [2, 5]`,
`prices = [10, 1]`, defaults `waste_fraction = 0.3`, multipliers `1` / `1.5`:
the decomposition holds and the waste cost is zero since the prediction is
below the actuals pointwise. -/
theorem c6_total_cost_decomposition_witness :
    total_business_cost_dkk [3, 5] [2, 5] [10, 1] (3/10) 1 (3/2)
      = 1 * waste_cost_dkk [3, 5] [2, 5] [10, 1] (3/10)
        + (3/2) * stockout_cost_dkk [3, 5] [2, 5] [10, 1]
    ∧ waste_cost_dkk [3, 5] [2, 5] [10, 1] (3/10) = 0 := by
  refine ⟨(c6_total_cost_decomposition [3, 5] [2, 5] [10, 1] (3/10) 1 (3/2)).1, ?_⟩
  exact (c6_total_cost_decomposition [3, 5] [2, 5] [10, 1] (3/10) 1 (3/2)).2.1
    (by decide)

section InventoryOptimizer

/-!
Embeds `src/inventory-forecasting/src/inventory/optimizer.py`.
`np.sqrt` on a nonnegative integer is embedded as `Real.sqrt`.
-/

/-- `calculate_safety_stock(forecast_std, lead_time_days, z_score)`:
`z_score * forecast_std * np.sqrt(lead_time_days)`. -/
noncomputable def calculate_safety_stock (forecast_std : ℚ) (lead_time_days : ℕ)
    (z_score : ℚ) : ℝ :=
  (z_score : ℝ) * (forecast_std : ℝ) * Real.sqrt lead_time_days

/-- `calculate_reorder_point(avg_daily_demand, lead_time_days, safety_stock)`:
`avg_daily_demand * lead_time_days + safety_stock`. -/
noncomputable def calculate_reorder_point (avg_daily_demand : ℚ)
    (lead_time_days : ℕ) (safety_stock : ℝ) : ℝ :=
  (avg_daily_demand : ℝ) * (lead_time_days : ℝ) + safety_stock

/-- `generate_prep_recommendations`: `forecast_std = max(forecast_std, 0.1)`
(comment in source: "Minimum std"). -/
def prepClampedStd (forecast_std : ℚ) : ℚ := max forecast_std (1/10)

/-- The safety stock computed inside `generate_prep_recommendations`:
`calculate_safety_stock(max(forecast_std, 0.1), lead_time_days, z_score)`. -/
noncomputable def prepSafetyStock (forecast_std : ℚ) (lead_time_days : ℕ)
    (z_score : ℚ) : ℝ :=
  calculate_safety_stock (prepClampedStd forecast_std) lead_time_days z_score

/-- `cv = forecast_std / max(avg_demand, 0.1)` with the already-clamped std. -/
def prepCv (forecast_std avg_demand : ℚ) : ℚ :=
  prepClampedStd forecast_std / max avg_demand (1/10)

/-- Alert levels of `generate_prep_recommendations`. -/
inductive AlertLevel where
  | red
  | yellow
  | green
deriving DecidableEq

/-- `if cv > 0.8: "red" elif cv > 0.4: "yellow" else: "green"`. -/
def prepAlertLevel (forecast_std avg_demand : ℚ) : AlertLevel :=
  if prepCv forecast_std avg_demand > 8/10 then .red
  else if prepCv forecast_std avg_demand > 4/10 then .yellow
  else .green

end InventoryOptimizer

/-- C9 counterexample: `calculate_safety_stock` is NOT strictly increasing in
`lead_time_days` for all argument values — at `forecast_std = 0` it returns `0`
for every lead time, so increasing the lead time from 1 to 4 does not increase
the result, contradicting the claim's "strictly increasing in `lead_time_days`
for all argument values". -/
theorem c9_strict_mono_counterexample :
    calculate_safety_stock 0 1 (165/100) = calculate_safety_stock 0 4 (165/100)
    ∧ (1 : ℕ) < 4
    ∧ calculate_safety_stock 0 1 (165/100) = 0 := by
  refine ⟨?_, by norm_num, ?_⟩ <;> simp [calculate_safety_stock]

/-- C9 (amended): `calculate_safety_stock(0, lead, z) = 0` for every lead time
and z-score; the result is strictly increasing in `forecast_std` whenever
`z_score > 0` and `lead_time_days > 0`, and strictly increasing in
`lead_time_days` whenever `z_score > 0` and `forecast_std > 0`. -/
theorem c9_safety_stock_monotone :
    (∀ (lead : ℕ) (z : ℚ), calculate_safety_stock 0 lead z = 0)
    ∧ (∀ (s₁ s₂ z : ℚ) (lead : ℕ), 0 < z → 0 < lead → s₁ < s₂ →
        calculate_safety_stock s₁ lead z < calculate_safety_stock s₂ lead z)
    ∧ (∀ (s z : ℚ) (l₁ l₂ : ℕ), 0 < z → 0 < s → l₁ < l₂ →
        calculate_safety_stock s l₁ z < calculate_safety_stock s l₂ z) := by
  refine ⟨?_, ?_, ?_⟩
  · intro lead z
    simp [calculate_safety_stock]
  · intro s₁ s₂ z lead hz hlead hs
    unfold calculate_safety_stock
    have hsqrt : 0 < Real.sqrt lead := by
      apply Real.sqrt_pos.mpr
      exact_mod_cast hlead
    have hz' : (0 : ℝ) < (z : ℚ) := by exact_mod_cast hz
    have hs' : ((s₁ : ℚ) : ℝ) < ((s₂ : ℚ) : ℝ) := by exact_mod_cast hs
    exact mul_lt_mul_of_pos_right (mul_lt_mul_of_pos_left hs' hz') hsqrt
  · intro s z l₁ l₂ hz hs hl
    unfold calculate_safety_stock
    have hsqrt : Real.sqrt l₁ < Real.sqrt l₂ := by
      apply Real.sqrt_lt_sqrt (by positivity)
      exact_mod_cast hl
    have hzs : (0 : ℝ) < (z : ℝ) * (s : ℝ) := by
      have hz' : (0 : ℝ) < (z : ℝ) := by exact_mod_cast hz
      have hs' : (0 : ℝ) < (s : ℝ) := by exact_mod_cast hs
      positivity
    calc (z : ℝ) * (s : ℝ) * Real.sqrt l₁
        < (z : ℝ) * (s : ℝ) * Real.sqrt l₂ := by
          exact mul_lt_mul_of_pos_left hsqrt hzs
    _ = (z : ℝ) * (s : ℝ) * Real.sqrt l₂ := rfl

/-- Witness for C9 (amended) at concrete inputs: zero std gives zero safety
stock; std 1 < 2 raises it (z = 1.65, lead 1); lead 1 < 4 raises it
(z = 1.65, std = 1). -/
theorem c9_safety_stock_monotone_witness :
    calculate_safety_stock 0 7 (165/100) = 0
    ∧ calculate_safety_stock 1 1 (165/100) < calculate_safety_stock 2 1 (165/100)
    ∧ calculate_safety_stock 1 1 (165/100) < calculate_safety_stock 1 4 (165/100) :=
  ⟨c9_safety_stock_monotone.1 7 (165/100),
   c9_safety_stock_monotone.2.1 1 2 (165/100) 1 (by norm_num) (by norm_num) (by norm_num),
   c9_safety_stock_monotone.2.2 1 (165/100) 1 4 (by norm_num) (by norm_num) (by norm_num)⟩

/-- C3 counterexample: in `generate_prep_recommendations`, with
`forecast_std = 0` and `avg_daily_demand = 0` (defaults z = 1.65,
lead = 1 day), the computed safety stock is `1.65 * 0.1 * sqrt 1 = 0.165`,
not `0`; the coefficient of variation is `0.1 / 0.1 = 1`, not `0`; and the
alert level is `red`, not `green` — because the source clamps the std to a
minimum of `0.1` before all three formulas. -/
theorem c3_zero_std_counterexample :
    prepSafetyStock 0 1 (165/100) = (165/1000 : ℝ)
    ∧ prepSafetyStock 0 1 (165/100) ≠ 0
    ∧ prepCv 0 0 = 1
    ∧ prepCv 0 0 ≠ 0
    ∧ prepAlertLevel 0 0 = AlertLevel.red
    ∧ prepAlertLevel 0 0 ≠ AlertLevel.green := by
  have h1 : prepSafetyStock 0 1 (165/100) = (165/1000 : ℝ) := by
    unfold prepSafetyStock calculate_safety_stock prepClampedStd
    rw [Nat.cast_one, Real.sqrt_one]
    norm_num
  have h2 : prepCv 0 0 = 1 := by
    norm_num [prepCv, prepClampedStd, max_def]
  have h3 : prepAlertLevel 0 0 = AlertLevel.red := by
    rw [prepAlertLevel, h2]
    norm_num
  refine ⟨h1, ?_, h2, by rw [h2]; norm_num, h3, by rw [h3]; decide⟩
  rw [h1]
  norm_num

/-- C3 (amended): `generate_prep_recommendations` degrades gracefully at zero
std / zero average demand, but by clamping rather than by producing zeros:
the cv denominator `max(avg_daily_demand, 0.1)` is always positive (so no
division by zero ever occurs); with `forecast_std = 0` the safety stock equals
`z_score * 0.1 * sqrt lead_time` (not 0) and the cv equals
`0.1 / max(avg, 0.1)` (not 0); and when additionally `avg_daily_demand = 0`
the cv is `1.0` and the alert level is `red` (not green). -/
theorem c3_clamped_degradation (avg z : ℚ) (lead : ℕ) :
    0 < max avg (1/10)
    ∧ prepSafetyStock 0 lead z = (z : ℝ) * (1/10 : ℝ) * Real.sqrt lead
    ∧ prepCv 0 avg = (1/10) / max avg (1/10)
    ∧ (avg = 0 → prepCv 0 avg = 1 ∧ prepAlertLevel 0 avg = AlertLevel.red) := by
  have hclamp : prepClampedStd 0 = 1/10 := by
    norm_num [prepClampedStd, max_def]
  refine ⟨?_, ?_, ?_, ?_⟩
  · exact lt_max_of_lt_right (by norm_num)
  · unfold prepSafetyStock calculate_safety_stock
    rw [hclamp]
    norm_num
  · unfold prepCv
    rw [hclamp]
  · intro havg
    subst havg
    have h2 : prepCv 0 0 = 1 := by
      norm_num [prepCv, prepClampedStd, max_def]
    refine ⟨h2, ?_⟩
    rw [prepAlertLevel, h2]
    norm_num

/-- Witness for C3 (amended) at `avg = 0`, `z = 1.65`, `lead = 1`. -/
theorem c3_clamped_degradation_witness :
    0 < max (0 : ℚ) (1/10)
    ∧ prepSafetyStock 0 1 (165/100)
        = ((165/100 : ℚ) : ℝ) * (1/10 : ℝ) * Real.sqrt (1 : ℕ)
    ∧ prepCv 0 0 = 1
    ∧ prepAlertLevel 0 0 = AlertLevel.red :=
  ⟨(c3_clamped_degradation 0 (165/100) 1).1,
   (c3_clamped_degradation 0 (165/100) 1).2.1,
   ((c3_clamped_degradation 0 (165/100) 1).2.2.2 rfl).1,
   ((c3_clamped_degradation 0 (165/100) 1).2.2.2 rfl).2⟩

section FeatureBuilder

/-!
Embeds the per-`(place_id, item_id)` group computations of
`src/inventory-forecasting/src/features/lag_features.py` (used by the
training pipeline, also re-exported through
`src/FlowPOS/services/forecasting/src/features/builder.py`) and of
`build_inference_features` in
`src/FlowPOS/services/forecasting/src/models/model_service.py`.
A group's observations are a list `xs : List ℚ` of `quantity_sold`
values in date order; row index `i` plays the role of day `d`; a pandas
`NaN` cell is `Option.none`.
-/

/-- `grouped.shift(lag)` at row `i`: the value `lag` rows earlier, `NaN`
(`none`) when there is no such row.  Used for `demand_lag_{1,7,14,28}d`
and `demand_same_weekday_last_week` (`shift(7)`). -/
def demand_lag (lag : ℕ) (xs : List ℚ) (i : ℕ) : Option ℚ :=
  if lag ≤ i then xs[i - lag]? else none

/-- The window of the `x.shift(1).rolling(window, min_periods=1)` computation
at row `i`: the last `window` observations strictly before row `i`. -/
def pastWindow (window : ℕ) (xs : List ℚ) (i : ℕ) : List ℚ :=
  (xs.take i).drop (i - window)

/-- `rolling_mean_{7,14,30}d` in `add_rolling_features`:
`x.shift(1).rolling(window, min_periods=1).mean()` at row `i` —
`NaN` at row 0, otherwise the mean of the last `window` strictly-prior
observations. -/
def rolling_mean (window : ℕ) (xs : List ℚ) (i : ℕ) : Option ℚ :=
  if pastWindow window xs i = [] then none
  else some ((pastWindow window xs i).sum / (pastWindow window xs i).length)

/-- `expanding_mean` in `add_rolling_features` (lag_features.py):
`x.shift(1).expanding(min_periods=1).mean()` at row `i` — the mean of ALL
strictly-prior observations, `NaN` at row 0. -/
def expandingMeanShifted (xs : List ℚ) (i : ℕ) : Option ℚ :=
  if i = 0 then none
  else some ((xs.take i).sum / (xs.take i).length)

/-- `expanding_mean` in `build_inference_features` (model_service.py):
`df.groupby(group)[target].expanding().mean()` at row `i` — the mean of the
observations up to AND INCLUDING row `i` (there is no `shift(1)` in this
copy of the feature pipeline). -/
def expandingMeanUnshifted (xs : List ℚ) (i : ℕ) : Option ℚ :=
  if xs.take (i + 1) = [] then none
  else some ((xs.take (i + 1)).sum / (xs.take (i + 1)).length)

/-- The training-side feature only reads the strict past: two series that
agree strictly before row `i` get the same `expanding_mean` there. -/
theorem expandingMeanShifted_past_only {xs ys : List ℚ} (i : ℕ)
    (h : xs.take i = ys.take i) :
    expandingMeanShifted xs i = expandingMeanShifted ys i := by
  unfold expandingMeanShifted
  rw [h]

/-- Likewise for the rolling means and lags of `add_rolling_features`. -/
theorem rolling_mean_past_only {xs ys : List ℚ} (window i : ℕ)
    (h : xs.take i = ys.take i) :
    rolling_mean window xs i = rolling_mean window ys i := by
  unfold rolling_mean pastWindow
  rw [h]

end FeatureBuilder

/-- C1: evaluation at the failing input.  The two single-group series
`[0, 10]` and `[0, 0]` agree on every observation strictly before row 1,
yet `build_inference_features` computes `expanding_mean = 5` for the first
and `0` for the second at row 1 — the feature at day *d* reads day *d*'s own
observation (`10` vs `0`).  The training-side `add_rolling_features`
(lag_features.py) computes `0` for both, as the no-look-ahead invariant
demands. -/
theorem c1_expanding_mean_leak_eval :
    ([0, 10] : List ℚ).take 1 = ([0, 0] : List ℚ).take 1
    ∧ expandingMeanUnshifted [0, 10] 1 = some 5
    ∧ expandingMeanUnshifted [0, 0] 1 = some 0
    ∧ expandingMeanUnshifted [0, 10] 1 ≠ expandingMeanUnshifted [0, 0] 1
    ∧ expandingMeanShifted [0, 10] 1 = some 0
    ∧ expandingMeanShifted [0, 0] 1 = some 0 := by
  refine ⟨rfl, ?_, ?_, ?_, ?_, ?_⟩ <;>
    · simp [expandingMeanUnshifted, expandingMeanShifted]
      try norm_num

section EnsembleForecaster

/-!
Embeds the ensemble voting of `predict_multi_day` in
`src/FlowPOS/services/forecasting/src/models/model_service.py` (the same
vote/median/scaling code appears in `_dual_forecast_trained_models` in
`src/FlowPOS/services/forecasting/src/llm/tools.py`), and the
`HybridForecaster` / `WasteOptimizedForecaster` prediction pipeline of
`src/inventory-forecasting/src/models/ensemble.py`.
`np.median` on the concrete 2- and 3-element vote lists the code builds is
the mean of two values resp. the middle order statistic of three.
-/

/-- `np.median([b, w])`: the mean of the two votes. -/
def npMedian2 (a b : ℚ) : ℚ := (a + b) / 2

/-- `np.median([b, w, l])`: the middle order statistic of the three votes,
written in closed form. -/
def npMedian3 (a b c : ℚ) : ℚ := max (min a b) (min (max a b) c)

/-- `votes = [base_balanced, base_waste]` plus `base_lstm` when the LSTM
covered the item; `ensemble_pred = float(np.median(votes))`. -/
def ensembleEstimate (b w : ℚ) : Option ℚ → ℚ
  | none => npMedian2 b w
  | some l => npMedian3 b w l

/-- `forecast_balanced` in the per-day result dict of `predict_multi_day`:
`round(max(0.0, _base_ensemble * factor), 1)` — note the source reports the
weekday-scaled ENSEMBLE median under the name `forecast_balanced`. -/
def forecast_balanced (b w : ℚ) (l : Option ℚ) (factor : ℚ) : ℚ :=
  pyRound1 (max 0 (ensembleEstimate b w l * factor))

/-- `forecast_waste_optimized` in the same result dict:
`round(max(0.0, _base_waste * factor), 1)`. -/
def forecast_waste_optimized (w factor : ℚ) : ℚ :=
  pyRound1 (max 0 (w * factor))

/-- `HybridForecaster.predict` with `round_predictions=True` (the
configuration `WasteOptimizedForecaster` instantiates), one row:
`(xgb_weight * xgb + (1 - xgb_weight) * ma).round().clip(lower=0)`. -/
def hybridPredict (xgb_weight xgb ma : ℚ) : ℤ :=
  max (rhe (xgb_weight * xgb + (1 - xgb_weight) * ma)) 0

/-- `WasteOptimizedForecaster.predict`, one row: the underlying hybrid
prediction `base` (a clipped, rounded integer), then
`(base * shrink).round().clip(lower=0)`. -/
def wasteOptimizedPredict (shrink : ℚ) (base : ℤ) : ℤ :=
  max (rhe ((base : ℚ) * shrink)) 0

theorem le_npMedian3_of_le {b w : ℚ} (l : ℚ) (h : w ≤ b) :
    w ≤ npMedian3 b w l := by
  unfold npMedian3
  rw [min_eq_right h]
  exact le_max_left _ _

theorem min_le_npMedian3 (a b c : ℚ) : min a (min b c) ≤ npMedian3 a b c := by
  unfold npMedian3
  calc min a (min b c) ≤ min a b := by
        exact min_le_min le_rfl (min_le_left _ _)
  _ ≤ max (min a b) (min (max a b) c) := le_max_left _ _

theorem npMedian3_le_max (a b c : ℚ) : npMedian3 a b c ≤ max a (max b c) := by
  unfold npMedian3
  apply max_le
  · exact le_trans (min_le_left _ _) (le_max_left _ _)
  · exact le_trans (min_le_right _ _)
      (le_trans (le_max_right b c) (le_max_right a (max b c)))

theorem mset_swap12 (a b c : ℚ) : ({a, b, c} : Multiset ℚ) = {b, a, c} :=
  Multiset.cons_swap a b {c}

theorem mset_swap23 (a b c : ℚ) : ({a, b, c} : Multiset ℚ) = {a, c, b} := by
  show a ::ₘ (b ::ₘ c ::ₘ 0) = a ::ₘ (c ::ₘ b ::ₘ 0)
  rw [Multiset.cons_swap b c]

theorem mset_rot (a b c : ℚ) : ({a, b, c} : Multiset ℚ) = {c, a, b} := by
  rw [mset_swap23, mset_swap12]

/-- `npMedian3 a b c` really is the middle order statistic: the three votes
sort into `x ≤ y ≤ z` and the median equals `y`. -/
theorem npMedian3_middle (a b c : ℚ) :
    ∃ x y z : ℚ, x ≤ y ∧ y ≤ z ∧ ({a, b, c} : Multiset ℚ) = {x, y, z}
      ∧ npMedian3 a b c = y := by
  rcases le_total a b with hab | hba
  · rcases le_total b c with hbc | hcb
    · refine ⟨a, b, c, hab, hbc, rfl, ?_⟩
      rw [npMedian3, min_eq_left hab, max_eq_right hab, min_eq_left hbc]
      exact max_eq_right hab
    · rcases le_total a c with hac | hca
      · refine ⟨a, c, b, hac, hcb, mset_swap23 a b c, ?_⟩
        rw [npMedian3, min_eq_left hab, max_eq_right hab, min_eq_right hcb]
        exact max_eq_right hac
      · refine ⟨c, a, b, hca, hab, mset_rot a b c, ?_⟩
        rw [npMedian3, min_eq_left hab, max_eq_right hab, min_eq_right hcb]
        exact max_eq_left hca
  · rcases le_total a c with hac | hca
    · refine ⟨b, a, c, hba, hac, mset_swap12 a b c, ?_⟩
      rw [npMedian3, min_eq_right hba, max_eq_left hba, min_eq_left hac]
      exact max_eq_right hba
    · rcases le_total b c with hbc | hcb
      · refine ⟨b, c, a, hbc, hca, (mset_rot b c a).symm, ?_⟩
        rw [npMedian3, min_eq_right hba, max_eq_left hba, min_eq_right hca]
        exact max_eq_right hbc
      · refine ⟨c, b, a, hcb, hba, by rw [mset_swap12, mset_rot b a c], ?_⟩
        rw [npMedian3, min_eq_right hba, max_eq_left hba, min_eq_right hca]
        exact max_eq_left hcb

end EnsembleForecaster

/-- C5: the ensemble estimate is `np.median` of the available votes — for two
votes the mean of the two (which lies between them), for three votes the
middle order statistic — and in both cases it lies within
`[min(votes), max(votes)]`. -/
theorem c5_ensemble_median_bounds :
    (∀ b w : ℚ, ensembleEstimate b w none = (b + w) / 2
      ∧ min b w ≤ ensembleEstimate b w none
      ∧ ensembleEstimate b w none ≤ max b w)
    ∧ (∀ b w l : ℚ,
        (∃ x y z : ℚ, x ≤ y ∧ y ≤ z ∧ ({b, w, l} : Multiset ℚ) = {x, y, z}
          ∧ ensembleEstimate b w (some l) = y)
        ∧ min b (min w l) ≤ ensembleEstimate b w (some l)
        ∧ ensembleEstimate b w (some l) ≤ max b (max w l)) := by
  constructor
  · intro b w
    refine ⟨rfl, ?_, ?_⟩
    · show min b w ≤ (b + w) / 2
      rcases le_total b w with h | h
      · rw [min_eq_left h]
        linarith
      · rw [min_eq_right h]
        linarith
    · show (b + w) / 2 ≤ max b w
      rcases le_total b w with h | h
      · rw [max_eq_right h]
        linarith
      · rw [max_eq_left h]
        linarith
  · intro b w l
    exact ⟨npMedian3_middle b w l, min_le_npMedian3 b w l, npMedian3_le_max b w l⟩

/-- C4 counterexample: with balanced vote 1, waste-model vote 2, LSTM vote 1
and weekday factor 1 (shrink at its default 0.85 ∈ (0,1), which does not
constrain an independently trained waste model's vote), `predict_multi_day`
reports `forecast_waste_optimized = 2` but `forecast_balanced = 1` (the
ensemble median), so the reported waste-optimized estimate EXCEEDS the
reported balanced estimate. -/
theorem c4_waste_exceeds_balanced_counterexample :
    forecast_balanced 1 2 (some 1) 1 = 1
    ∧ forecast_waste_optimized 2 1 = 2
    ∧ ¬ (forecast_waste_optimized 2 1 ≤ forecast_balanced 1 2 (some 1) 1) := by
  have hmed : ensembleEstimate 1 2 (some 1) = 1 := by
    show npMedian3 1 2 1 = 1
    norm_num [npMedian3, max_def, min_def]
  have h1 : forecast_balanced 1 2 (some 1) 1 = 1 := by
    unfold forecast_balanced
    rw [hmed]
    norm_num [max_def]
    have := pyRound1_intCast 1
    push_cast at this
    exact this
  have h2 : forecast_waste_optimized 2 1 = 2 := by
    unfold forecast_waste_optimized
    norm_num [max_def]
    have := pyRound1_intCast 2
    push_cast at this
    exact this
  refine ⟨h1, h2, ?_⟩
  rw [h1, h2]
  norm_num

/-- C4 (amended): the reported waste-optimized estimate is ≤ the reported
balanced estimate whenever the waste vote is ≤ the balanced vote (and the
weekday factor is ≥ 0) — in particular in the no-waste-model fallback, where
the waste vote is `balanced * shrink` with shrink ∈ (0,1) and a nonnegative
balanced vote; and `WasteOptimizedForecaster.predict` itself never exceeds
its underlying hybrid prediction for shrink ∈ (0,1).  For an independently
trained waste model whose vote exceeds the balanced vote the relation can
fail (see the counterexample). -/
theorem c4_waste_le_balanced :
    (∀ (b w f : ℚ) (l : Option ℚ), w ≤ b → 0 ≤ f →
        forecast_waste_optimized w f ≤ forecast_balanced b w l f)
    ∧ (∀ (b s f : ℚ) (l : Option ℚ), 0 ≤ b → 0 < s → s < 1 → 0 ≤ f →
        forecast_waste_optimized (b * s) f ≤ forecast_balanced b (b * s) l f)
    ∧ (∀ (base : ℤ) (s : ℚ), 0 ≤ base → 0 < s → s < 1 →
        wasteOptimizedPredict s base ≤ base) := by
  have main : ∀ (b w f : ℚ) (l : Option ℚ), w ≤ b → 0 ≤ f →
      forecast_waste_optimized w f ≤ forecast_balanced b w l f := by
    intro b w f l hwb hf
    unfold forecast_waste_optimized forecast_balanced
    apply pyRound1_mono
    apply max_le_max le_rfl
    apply mul_le_mul_of_nonneg_right _ hf
    cases l with
    | none =>
      show w ≤ npMedian2 b w
      unfold npMedian2
      linarith
    | some l => exact le_npMedian3_of_le l hwb
  refine ⟨main, ?_, ?_⟩
  · intro b s f l hb hs0 hs1 hf
    apply main
    · calc b * s ≤ b * 1 := by
            exact mul_le_mul_of_nonneg_left hs1.le hb
      _ = b := by ring
    · exact hf
  · intro base s hb hs0 hs1
    unfold wasteOptimizedPredict
    apply max_le _ hb
    have h1 : (base : ℚ) * s ≤ ((base : ℤ) : ℚ) := by
      calc (base : ℚ) * s ≤ (base : ℚ) * 1 := by
            apply mul_le_mul_of_nonneg_left hs1.le
            exact_mod_cast hb
      _ = (base : ℚ) := by ring
    calc rhe ((base : ℚ) * s) ≤ rhe ((base : ℤ) : ℚ) := rhe_mono h1
    _ = base := rhe_intCast base

/-- Witness for C4 (amended): waste vote 5 ≤ balanced vote 10 with LSTM vote
20 and factor 1; the 0.85-shrink fallback at balanced vote 10; and
`WasteOptimizedForecaster` at hybrid output 100 with shrink 0.85. -/
theorem c4_waste_le_balanced_witness :
    forecast_waste_optimized 5 1 ≤ forecast_balanced 10 5 (some 20) 1
    ∧ forecast_waste_optimized (10 * (85/100)) 1
        ≤ forecast_balanced 10 (10 * (85/100)) none 1
    ∧ wasteOptimizedPredict (85/100) 100 ≤ 100 :=
  ⟨c4_waste_le_balanced.1 10 5 1 (some 20) (by norm_num) (by norm_num),
   c4_waste_le_balanced.2.1 10 (85/100) 1 none (by norm_num) (by norm_num)
     (by norm_num) (by norm_num),
   c4_waste_le_balanced.2.2 100 (85/100) (by norm_num) (by norm_num) (by norm_num)⟩

section BOMExplosionEngine

/-!
Embeds the demand-explosion loop of `forecast_ingredients` in
`src/FlowPOS/services/forecasting/src/api/model_routes.py` (step 4,
"Explode product demand → ingredient demand").  The `title → product_id →
linked sku_ids` resolution is elided: a product is represented directly by
its already-resolved linked SKU list paired with its forecasted demand
(unmapped products are simply absent, as `continue` makes them in the
source).  `typeOf sku` is `sku_map[sku]["type"]`; `bom sku` is
`bom_map.get(sku, [])` — a key is present in `bom_map` iff its edge list
is nonempty, since `bom_map` entries are built by `setdefault` + `append`.
The mutable dict `ingredient_demand` (default 0) is a function `ℕ → ℚ`
threaded through folds.
-/

/-- One BOM edge update:
`ingredient_demand[child] = ingredient_demand.get(child, 0) + demand * bom_qty`. -/
def distribOne (demand : ℚ) (acc : ℕ → ℚ) (edge : ℕ × ℚ) : ℕ → ℚ :=
  Function.update acc edge.1 (acc edge.1 + demand * edge.2)

/-- The inner `for child_sku_id, bom_qty in bom_map[sku_id]` loop. -/
def distributeEdges (demand : ℚ) (edges : List (ℕ × ℚ)) (acc : ℕ → ℚ) : ℕ → ℚ :=
  edges.foldl (distribOne demand) acc

/-- Processing one linked SKU of a product:
`if sku_info["type"] == "composite" and sku_id in bom_map:` distribute over
the BOM edges, `else` add the product's demand to the SKU itself. -/
def explodeSku (typeOf : ℕ → String) (bom : ℕ → List (ℕ × ℚ)) (demand : ℚ)
    (acc : ℕ → ℚ) (sku : ℕ) : ℕ → ℚ :=
  if typeOf sku = "composite" ∧ bom sku ≠ [] then
    distributeEdges demand (bom sku) acc
  else
    Function.update acc sku (acc sku + demand)

/-- The `for sku_id in linked_sku_ids` loop for one product
(`product = (linked_sku_ids, demand)`). -/
def explodeProduct (typeOf : ℕ → String) (bom : ℕ → List (ℕ × ℚ))
    (acc : ℕ → ℚ) (product : List ℕ × ℚ) : ℕ → ℚ :=
  product.1.foldl (explodeSku typeOf bom product.2) acc

/-- The outer `for product_title, demand in product_demand.items()` loop,
starting from the empty `ingredient_demand` dict. -/
def ingredientDemand (typeOf : ℕ → String) (bom : ℕ → List (ℕ × ℚ))
    (products : List (List ℕ × ℚ)) : ℕ → ℚ :=
  products.foldl (explodeProduct typeOf bom) (fun _ => 0)

/-- Closed-form contribution of one linked SKU carrying demand `d` to the
final total of SKU `s`: over direct BOM edges only for a composite SKU with
a BOM entry, else the demand itself if `sku = s`. -/
def skuContrib (typeOf : ℕ → String) (bom : ℕ → List (ℕ × ℚ))
    (sku : ℕ) (d : ℚ) (s : ℕ) : ℚ :=
  if typeOf sku = "composite" ∧ bom sku ≠ [] then
    ((bom sku).map (fun e => if e.1 = s then d * e.2 else 0)).sum
  else if sku = s then d else 0

/-- Closed-form contribution of one product to the final total of SKU `s`. -/
def productContrib (typeOf : ℕ → String) (bom : ℕ → List (ℕ × ℚ))
    (product : List ℕ × ℚ) (s : ℕ) : ℚ :=
  (product.1.map (fun sku => skuContrib typeOf bom sku product.2 s)).sum

theorem distributeEdges_apply (demand : ℚ) (edges : List (ℕ × ℚ))
    (acc : ℕ → ℚ) (s : ℕ) :
    distributeEdges demand edges acc s
      = acc s + (edges.map (fun e => if e.1 = s then demand * e.2 else 0)).sum := by
  induction edges generalizing acc with
  | nil => simp [distributeEdges]
  | cons e es ih =>
    show distributeEdges demand es (distribOne demand acc e) s = _
    rw [ih]
    unfold distribOne
    rw [Function.update_apply]
    by_cases h : e.1 = s
    · subst h
      rw [if_pos rfl]
      simp only [List.map_cons, List.sum_cons]
      simp only [if_true]
      ring
    · rw [if_neg (fun hs => h hs.symm)]
      simp only [List.map_cons, List.sum_cons]
      rw [if_neg h]
      ring

theorem explodeSku_apply (typeOf : ℕ → String) (bom : ℕ → List (ℕ × ℚ))
    (demand : ℚ) (acc : ℕ → ℚ) (sku s : ℕ) :
    explodeSku typeOf bom demand acc sku s
      = acc s + skuContrib typeOf bom sku demand s := by
  unfold explodeSku skuContrib
  by_cases h : typeOf sku = "composite" ∧ bom sku ≠ []
  · rw [if_pos h, if_pos h]
    exact distributeEdges_apply demand (bom sku) acc s
  · rw [if_neg h, if_neg h, Function.update_apply]
    by_cases hs : sku = s
    · subst hs
      rw [if_pos rfl, if_pos rfl]
    · rw [if_neg (fun h' => hs h'.symm), if_neg hs]
      ring

theorem explodeProduct_apply (typeOf : ℕ → String) (bom : ℕ → List (ℕ × ℚ))
    (acc : ℕ → ℚ) (product : List ℕ × ℚ) (s : ℕ) :
    explodeProduct typeOf bom acc product s
      = acc s + productContrib typeOf bom product s := by
  obtain ⟨skus, d⟩ := product
  unfold explodeProduct productContrib
  induction skus generalizing acc with
  | nil => simp
  | cons sku skus ih =>
    show (skus.foldl (explodeSku typeOf bom d) (explodeSku typeOf bom d acc sku)) s = _
    rw [ih]
    rw [explodeSku_apply]
    simp only [List.map_cons, List.sum_cons]
    ring

theorem ingredientDemand_foldl_apply (typeOf : ℕ → String)
    (bom : ℕ → List (ℕ × ℚ)) (products : List (List ℕ × ℚ))
    (acc : ℕ → ℚ) (s : ℕ) :
    products.foldl (explodeProduct typeOf bom) acc s
      = acc s + (products.map (fun p => productContrib typeOf bom p s)).sum := by
  induction products generalizing acc with
  | nil => simp
  | cons p ps ih =>
    show (ps.foldl (explodeProduct typeOf bom) (explodeProduct typeOf bom acc p)) s = _
    rw [ih, explodeProduct_apply]
    simp only [List.map_cons, List.sum_cons]
    ring

/-- A recursive, multi-level explosion following the spec's words (the
second definition of the refinement comparison — this is what the claim
describes, NOT what the source does): a composite SKU's demand is
distributed recursively to each child edge as `parent_demand *
quantity_per_unit`, children that are themselves composite are exploded
further, and raw SKUs (or composites without a BOM entry) accumulate the
demand reaching them.  `fuel` bounds the recursion depth (the BOM graph is
assumed acyclic). -/
def specExplodeSku (typeOf : ℕ → String) (bom : ℕ → List (ℕ × ℚ)) :
    ℕ → ℕ → ℚ → (ℕ → ℚ) → (ℕ → ℚ)
  | 0, sku, d, acc => Function.update acc sku (acc sku + d)
  | fuel + 1, sku, d, acc =>
    if typeOf sku = "composite" ∧ bom sku ≠ [] then
      (bom sku).foldl
        (fun a e => specExplodeSku typeOf bom fuel e.1 (d * e.2) a) acc
    else
      Function.update acc sku (acc sku + d)

end BOMExplosionEngine

/-- C2 counterexample: a two-level BOM.  Product "Burger" (demand 50) is
linked to composite SKU 1; SKU 1's BOM has one edge to SKU 2 with quantity 1;
SKU 2 is itself composite with one BOM edge to raw SKU 3 with quantity 2.
The source's single-level loop leaves the raw ingredient SKU 3 with demand 0
(all 50 units stop at the composite child SKU 2), whereas the recursive
explosion the claim describes gives SKU 3 its exploded demand 100. -/
theorem c2_multilevel_counterexample :
    ingredientDemand
        (fun n => if n = 1 ∨ n = 2 then "composite" else "raw")
        (fun n => if n = 1 then [(2, 1)] else if n = 2 then [(3, 2)] else [])
        [([1], 50)] 2 = 50
    ∧ ingredientDemand
        (fun n => if n = 1 ∨ n = 2 then "composite" else "raw")
        (fun n => if n = 1 then [(2, 1)] else if n = 2 then [(3, 2)] else [])
        [([1], 50)] 3 = 0
    ∧ specExplodeSku
        (fun n => if n = 1 ∨ n = 2 then "composite" else "raw")
        (fun n => if n = 1 then [(2, 1)] else if n = 2 then [(3, 2)] else [])
        3 1 50 (fun _ => 0) 3 = 100
    ∧ ingredientDemand
        (fun n => if n = 1 ∨ n = 2 then "composite" else "raw")
        (fun n => if n = 1 then [(2, 1)] else if n = 2 then [(3, 2)] else [])
        [([1], 50)] 3
      ≠ specExplodeSku
        (fun n => if n = 1 ∨ n = 2 then "composite" else "raw")
        (fun n => if n = 1 then [(2, 1)] else if n = 2 then [(3, 2)] else [])
        3 1 50 (fun _ => 0) 3 := by
  refine ⟨?_, ?_, ?_, ?_⟩ <;>
    · simp [ingredientDemand, explodeProduct, explodeSku, distributeEdges,
        distribOne, specExplodeSku, Function.update_apply]
      try norm_num

/-- C2 (amended): the BOM explosion is single-level.  For every SKU catalog,
BOM edge map and product list, the final accumulated demand of a SKU `s`
equals the sum over products and over their linked SKUs of: the direct-edge
contributions `demand * quantity_per_unit` summed over the linked SKU's own
BOM edges pointing at `s` when that SKU is composite with a nonempty BOM
entry, and the product's demand itself when the linked (non-composite or
BOM-less) SKU is `s`.  Accumulation is additive across products sharing an
ingredient; children that are themselves composite simply accumulate and are
never exploded further. -/
theorem c2_single_level_explosion (typeOf : ℕ → String)
    (bom : ℕ → List (ℕ × ℚ)) (products : List (List ℕ × ℚ)) (s : ℕ) :
    ingredientDemand typeOf bom products s
      = (products.map (fun p => productContrib typeOf bom p s)).sum := by
  unfold ingredientDemand
  rw [ingredientDemand_foldl_apply]
  ring

section ColdStartEstimator

/-!
Embeds the estimation step of `_tool_estimate_new_product` in
`src/FlowPOS/services/forecasting/src/llm/tools.py`.  `avgs` is the column
`similar_df["avg_daily"]` of the admissible comparable set (each entry a
per-item average daily demand, already rounded to one decimal by the SQL
`ROUND(AVG(qty), 1)`); the SQL retrieval itself is external data shaping.
-/

/-- `avg_demand = float(similar_df["avg_daily"].mean())` — the UNWEIGHTED
mean of the comparable set's per-item average daily demands. -/
def unweightedMean (avgs : List ℚ) : ℚ := avgs.sum / avgs.length

/-- `estimated = round(avg_demand * 0.7, 1)` — the 70 % conservative shrink
factor applied to the unweighted mean, rounded to one decimal. -/
def coldStartEstimate (avgs : List ℚ) : ℚ :=
  pyRound1 (unweightedMean avgs * (7/10))

/-- The demand-weighted average the spec describes (weights proportional to
each comparable's own volume) — the second definition of the refinement
comparison; this is what the claim says, NOT what the source computes. -/
def specWeightedAvg (avgs : List ℚ) : ℚ :=
  (avgs.map (fun a => a * a)).sum / avgs.sum

/-- The claim's estimator: demand-weighted average, then the 0.7 shrink. -/
def specColdStartEstimate (avgs : List ℚ) : ℚ :=
  pyRound1 (specWeightedAvg avgs * (7/10))

end ColdStartEstimator

/-- C7 counterexample: on the comparable set with per-item average daily
demands `[10, 2]` the source computes `round(0.7 * mean, 1) =
round(0.7 * 6, 1) = 4.2`, whereas the demand-weighted average the claim
describes is `(10·10 + 2·2)/(10 + 2) = 26/3`, giving
`round(0.7 * 26/3, 1) = 6.1` — the estimator is NOT demand-weighted. -/
theorem c7_weighted_average_counterexample :
    coldStartEstimate [10, 2] = 42/10
    ∧ specColdStartEstimate [10, 2] = 61/10
    ∧ coldStartEstimate [10, 2] ≠ specColdStartEstimate [10, 2] := by
  have h1 : coldStartEstimate [10, 2] = 42/10 := by
    unfold coldStartEstimate unweightedMean pyRound1 rhe
    norm_num
  have h2 : specColdStartEstimate [10, 2] = 61/10 := by
    unfold specColdStartEstimate specWeightedAvg pyRound1 rhe
    norm_num
  refine ⟨h1, h2, ?_⟩
  rw [h1, h2]
  norm_num

/-- C7 (amended): the cold-start estimator applies the conservative shrink
factor 0.7 to the UNWEIGHTED average of the comparable set's per-item
average daily demands and rounds to one decimal; for every non-empty
comparable set of nonnegative demands the pre-rounding point estimate
`0.7 * mean` never exceeds the unweighted average, and the rounded estimate
never exceeds it either once the mean is at least 1/6 (below that, rounding
up to the nearest decimal may overshoot the tiny mean). -/
theorem c7_unweighted_shrink (avgs : List ℚ)
    (_hne : avgs ≠ []) (hpos : ∀ a ∈ avgs, 0 ≤ a) :
    coldStartEstimate avgs = pyRound1 (unweightedMean avgs * (7/10))
    ∧ unweightedMean avgs * (7/10) ≤ unweightedMean avgs
    ∧ (1/6 ≤ unweightedMean avgs → coldStartEstimate avgs ≤ unweightedMean avgs) := by
  have hmean : 0 ≤ unweightedMean avgs := by
    unfold unweightedMean
    apply div_nonneg
    · exact List.sum_nonneg hpos
    · positivity
  refine ⟨rfl, ?_, ?_⟩
  · nlinarith [hmean]
  · intro h6
    unfold coldStartEstimate
    have := pyRound1_le (unweightedMean avgs * (7/10))
    nlinarith [this]

/-- Witness for C7 (amended) at the comparable set `[10, 2]`. -/
theorem c7_unweighted_shrink_witness :
    coldStartEstimate [10, 2] = pyRound1 (unweightedMean [10, 2] * (7/10))
    ∧ unweightedMean [10, 2] * (7/10) ≤ unweightedMean [10, 2]
    ∧ coldStartEstimate [10, 2] ≤ unweightedMean [10, 2] := by
  have h := c7_unweighted_shrink [10, 2] (by simp) (by
    intro a ha
    simp only [List.mem_cons, List.not_mem_nil, or_false] at ha
    rcases ha with rfl | rfl <;> norm_num)
  refine ⟨h.1, h.2.1, h.2.2 ?_⟩
  unfold unweightedMean
  norm_num

section ForecastModelGuards

/-!
Embeds the output guards of the forecast-model variants where IEEE special
values matter: `XGBoostForecaster.predict` in `src/src/models/xgboost_model.py`
("Guard: replace any NaN/inf from XGBoost with 0", then `np.clip(..., 0,
None)`), `HybridForecaster.predict` in
`src/inventory-forecasting/src/models/ensemble.py` (round + `clip(lower=0)`,
see `hybridPredict` above), `MovingAverageModel.predict` in
`src/FlowPOS/services/forecasting/src/models/baseline.py` (rolling-mean
feature with `fillna(0)`), and the final step of
`RNNForecaster.predict_items` in
`src/FlowPOS/services/forecasting/src/models/rnn_forecaster.py`
(`predicted = max(0.0, last_demand + predicted_delta)`, then
`round(predicted, 1)`).  `PVal` is a float value that may be NaN or ±inf;
`pyMaxZero` is Python's `max(0.0, v)`, which returns the SECOND argument
only when it compares greater than `0.0` (so NaN and −inf yield `0.0`,
while +inf is returned). -/

/-- A Python float value: finite (exact rational), NaN, +inf or −inf. -/
inductive PVal where
  | fin : ℚ → PVal
  | nan : PVal
  | pinf : PVal
  | ninf : PVal
deriving DecidableEq

/-- IEEE addition on the cases reachable from `last_demand +
predicted_delta` (NaN absorbs; +inf + −inf is NaN; an infinity absorbs a
finite value). -/
def PVal.add : PVal → PVal → PVal
  | nan, _ => nan
  | _, nan => nan
  | pinf, ninf => nan
  | ninf, pinf => nan
  | pinf, _ => pinf
  | _, pinf => pinf
  | ninf, _ => ninf
  | _, ninf => ninf
  | fin a, fin b => fin (a + b)

/-- Whether the value is an ordinary finite float. -/
def PVal.isFinite : PVal → Bool
  | fin _ => true
  | _ => false

/-- Python `max(0.0, v)`: `v` when `v > 0.0` compares true, else `0.0` —
so `max(0.0, nan) = 0.0` and `max(0.0, -inf) = 0.0`, but
`max(0.0, inf) = inf`. -/
def pyMaxZero : PVal → PVal
  | PVal.fin a => if 0 < a then PVal.fin a else PVal.fin 0
  | PVal.nan => PVal.fin 0
  | PVal.pinf => PVal.pinf
  | PVal.ninf => PVal.fin 0

/-- Python `round(v, 1)` on a possibly special value: NaN and ±inf pass
through unchanged. -/
def PVal.round1 : PVal → PVal
  | PVal.fin a => PVal.fin (pyRound1 a)
  | v => v

/-- `RNNForecaster.predict_items`, final step for one item:
`round(max(0.0, last_demand + predicted_delta), 1)` (the reindexed demand
history makes `last_demand` an ordinary finite float). -/
def rnnPredictOne (lastDemand : ℚ) (delta : PVal) : PVal :=
  PVal.round1 (pyMaxZero (PVal.add (PVal.fin lastDemand) delta))

/-- The finite part of a value, with non-finite values replaced by 0:
`np.where(np.isfinite(predictions), predictions, 0)`. -/
def finOrZero : PVal → ℚ
  | PVal.fin a => a
  | _ => 0

/-- `XGBoostForecaster.predict`, one entry: the non-finite guard followed by
`np.clip(predictions, 0, None)`. -/
def xgbGuardedPredict (p : PVal) : ℚ :=
  max (finOrZero p) 0

/-- `MovingAverageModel.predict`, one row: the pre-computed
`rolling_mean_{window}d` feature with `fillna(0)`. -/
def maPredictOne (window : ℕ) (xs : List ℚ) (i : ℕ) : ℚ :=
  (rolling_mean window xs i).getD 0

end ForecastModelGuards

/-- C8 counterexample: a `+inf` intermediate value in the delta-based
sequence model is NOT replaced with 0 — `max(0.0, last_demand + inf) = inf`
and `round(inf, 1) = inf`, so the returned prediction is non-finite,
contradicting "any NaN or infinite intermediate value is replaced with 0
before the predictions are returned". -/
theorem c8_inf_propagates_counterexample :
    rnnPredictOne 5 PVal.pinf = PVal.pinf
    ∧ (rnnPredictOne 5 PVal.pinf).isFinite = false := by
  constructor <;> rfl

/-- C8 (amended): the tree model's guard replaces every non-finite raw
prediction with 0 and clips to ≥ 0, so its output is always a finite
nonnegative number; the hybrid blend's output is clipped to ≥ 0 (and is
finite since its tree votes are guarded and its moving-average votes are
NaN-filled rationals); the moving-average baseline fills missing history
with 0 and is ≥ 0 whenever the historical quantities are ≥ 0; and the
sequence model's max-with-zero floor maps a NaN or −inf intermediate to
exactly 0 and yields a finite nonnegative prediction for every finite
delta.  (A +inf intermediate in the sequence model, however, propagates —
see the counterexample.) -/
theorem c8_nonneg_finite_guards :
    (∀ p : PVal, 0 ≤ xgbGuardedPredict p)
    ∧ (∀ w xgb ma : ℚ, 0 ≤ hybridPredict w xgb ma)
    ∧ (∀ (window i : ℕ) (xs : List ℚ), (∀ q ∈ xs, 0 ≤ q) →
        0 ≤ maPredictOne window xs i)
    ∧ (∀ last : ℚ, rnnPredictOne last PVal.nan = PVal.fin 0
        ∧ rnnPredictOne last PVal.ninf = PVal.fin 0)
    ∧ (∀ last d : ℚ, ∃ q : ℚ, rnnPredictOne last (PVal.fin d) = PVal.fin q
        ∧ 0 ≤ q) := by
  have h0 : pyRound1 0 = 0 := by
    have := pyRound1_intCast 0
    push_cast at this
    exact this
  refine ⟨?_, ?_, ?_, ?_, ?_⟩
  · intro p
    exact le_max_right _ _
  · intro w xgb ma
    exact le_max_right _ _
  · intro window i xs hxs
    unfold maPredictOne rolling_mean
    split
    · norm_num
    · show 0 ≤ (pastWindow window xs i).sum / ((pastWindow window xs i).length : ℚ)
      apply div_nonneg
      · apply List.sum_nonneg
        intro q hq
        apply hxs
        exact List.mem_of_mem_take (List.mem_of_mem_drop hq)
      · positivity
  · intro last
    constructor
    · show PVal.round1 (pyMaxZero PVal.nan) = PVal.fin 0
      simp [pyMaxZero, PVal.round1, h0]
    · show PVal.round1 (pyMaxZero PVal.ninf) = PVal.fin 0
      simp [pyMaxZero, PVal.round1, h0]
  · intro last d
    show ∃ q : ℚ, PVal.round1 (pyMaxZero (PVal.fin (last + d))) = PVal.fin q ∧ 0 ≤ q
    by_cases h : 0 < last + d
    · refine ⟨pyRound1 (last + d), ?_, pyRound1_nonneg h.le⟩
      simp [pyMaxZero, PVal.round1, if_pos h]
    · refine ⟨0, ?_, le_refl 0⟩
      simp [pyMaxZero, PVal.round1, if_neg h, h0]

/-- Witness for C8 (amended): the moving-average baseline is ≥ 0 on the
nonnegative history `[3, 4]`, and the sequence model maps a NaN delta to
exactly 0. -/
theorem c8_nonneg_finite_guards_witness :
    0 ≤ maPredictOne 7 [3, 4] 2
    ∧ rnnPredictOne 5 PVal.nan = PVal.fin 0 :=
  ⟨c8_nonneg_finite_guards.2.2.1 7 2 [3, 4] (by
      intro q hq
      simp only [List.mem_cons, List.not_mem_nil, or_false] at hq
      rcases hq with rfl | rfl <;> norm_num),
   (c8_nonneg_finite_guards.2.2.2.1 5).1⟩

section IngredientForecastResponse

/-!
Embeds step 5 ("Build response with stock comparison") of
`forecast_ingredients` in
`src/FlowPOS/services/forecasting/src/api/model_routes.py`: the per-SKU
row derived from its total exploded demand, current stock, low-stock
threshold and the forecast horizon `days_ahead`.
-/

/-- `daily_rate = demand / days_ahead if demand > 0 else 0.0`. -/
def dailyRate (demand : ℚ) (days_ahead : ℕ) : ℚ :=
  if demand > 0 then demand / days_ahead else 0

/-- `days_remaining = current_stock / daily_rate if daily_rate > 0 else 999.0`. -/
def daysRemaining (demand stock : ℚ) (days_ahead : ℕ) : ℚ :=
  if dailyRate demand days_ahead > 0 then stock / dailyRate demand days_ahead
  else 999

/-- The reported `days_of_stock_remaining`:
`round(min(days_remaining, 999.0), 1)`. -/
def reportedDaysRemaining (demand stock : ℚ) (days_ahead : ℕ) : ℚ :=
  pyRound1 (min (daysRemaining demand stock days_ahead) 999)

/-- Reorder urgency classes of the ingredient forecast. -/
inductive ReorderUrgency where
  | critical
  | soon
  | low_stock
  | ok
deriving DecidableEq

/-- `if days_remaining < 2: critical; elif days_remaining < days_ahead: soon;
elif current_stock < low_stock_threshold: low_stock; else ok`. -/
def reorderUrgency (demand stock threshold : ℚ) (days_ahead : ℕ) : ReorderUrgency :=
  if daysRemaining demand stock days_ahead < 2 then .critical
  else if daysRemaining demand stock days_ahead < (days_ahead : ℚ) then .soon
  else if stock < threshold then .low_stock
  else .ok

/-- The reported `suggested_reorder_qty`:
`round(max(0.0, daily_rate * days_ahead * 1.5 - current_stock)
 if daily_rate > 0 else 0.0, 2)`. -/
def suggestedReorderQty (demand stock : ℚ) (days_ahead : ℕ) : ℚ :=
  pyRound2 (if dailyRate demand days_ahead > 0 then
    max 0 (dailyRate demand days_ahead * (days_ahead : ℚ) * (3/2) - stock)
  else 0)

end IngredientForecastResponse

/-- C10: a SKU with zero total forecasted demand takes only the guarded
branches (daily rate 0, so neither `demand / days_ahead` with positive
demand nor `stock / daily_rate` is ever evaluated on a zero denominator):
its reported days of stock remaining is exactly 999.0, its suggested
reorder quantity is 0, and its urgency is `ok` unless its current stock is
below the low-stock threshold, in which case `low_stock`; and for positive
demand the reported days of stock remaining is capped at 999.0.  (Horizon
hypotheses: `days_ahead` positive — the route default is 7 — and at most
999, without which the 999-day sentinel itself would classify as `soon`.) -/
theorem c10_zero_demand_guard (demand stock threshold : ℚ) (days_ahead : ℕ)
    (_hpos : 0 < days_ahead) (hcap : days_ahead ≤ 999) :
    (demand = 0 →
      dailyRate demand days_ahead = 0
      ∧ daysRemaining demand stock days_ahead = 999
      ∧ reportedDaysRemaining demand stock days_ahead = 999
      ∧ suggestedReorderQty demand stock days_ahead = 0
      ∧ reorderUrgency demand stock threshold days_ahead
          = (if stock < threshold then ReorderUrgency.low_stock
             else ReorderUrgency.ok))
    ∧ (0 < demand → reportedDaysRemaining demand stock days_ahead ≤ 999) := by
  have h999 : pyRound1 (999 : ℚ) = 999 := by
    have := pyRound1_intCast 999
    push_cast at this
    exact this
  have h0 : pyRound2 (0 : ℚ) = 0 := by
    unfold pyRound2
    rw [show (100 : ℚ) * 0 = ((0 : ℤ) : ℚ) by norm_num, rhe_intCast]
    norm_num
  constructor
  · intro hd
    subst hd
    have hrate : dailyRate 0 days_ahead = 0 := by
      unfold dailyRate
      rw [if_neg (by norm_num)]
    have hrem : daysRemaining 0 stock days_ahead = 999 := by
      unfold daysRemaining
      rw [hrate, if_neg (by norm_num)]
    refine ⟨hrate, hrem, ?_, ?_, ?_⟩
    · unfold reportedDaysRemaining
      rw [hrem, min_self, h999]
    · unfold suggestedReorderQty
      rw [hrate, if_neg (by norm_num), h0]
    · unfold reorderUrgency
      rw [hrem]
      rw [if_neg (by norm_num : ¬ (999 : ℚ) < 2)]
      rw [if_neg (not_lt.mpr (by exact_mod_cast hcap : (days_ahead : ℚ) ≤ 999))]
  · intro _
    unfold reportedDaysRemaining
    calc pyRound1 (min (daysRemaining demand stock days_ahead) 999)
        ≤ pyRound1 999 := pyRound1_mono (min_le_right _ _)
    _ = 999 := h999

/-- Witness for C10 at `demand = 0`, `stock = 5`, `threshold = 10`,
`days_ahead = 7` (stock below threshold, so urgency is `low_stock`), and at
`demand = 70`, `stock = 20`: reported days remaining ≤ 999. -/
theorem c10_zero_demand_guard_witness :
    reportedDaysRemaining 0 5 7 = 999
    ∧ suggestedReorderQty 0 5 7 = 0
    ∧ reorderUrgency 0 5 10 7
        = (if (5 : ℚ) < 10 then ReorderUrgency.low_stock else ReorderUrgency.ok)
    ∧ reportedDaysRemaining 70 20 7 ≤ 999 :=
  ⟨((c10_zero_demand_guard 0 5 10 7 (by norm_num) (by norm_num)).1 rfl).2.2.1,
   ((c10_zero_demand_guard 0 5 10 7 (by norm_num) (by norm_num)).1 rfl).2.2.2.1,
   ((c10_zero_demand_guard 0 5 10 7 (by norm_num) (by norm_num)).1 rfl).2.2.2.2,
   (c10_zero_demand_guard 70 20 10 7 (by norm_num) (by norm_num)).2 (by norm_num)⟩
